import Mathlib

/-!
Verification of the deterministic ATS scoring engine
(CareerPath-AI, utils/ats_scorer.py, class ATSScorer).

Shallow embedding conventions:
* Python floats are modeled as exact rationals; every arithmetic step of the
  source is exact rational arithmetic here, and the Python built-ins
  round(x) and round(x, 1) (round half to even) are modeled by pythonRound
  and roundTo1 below.
* Text is modeled as Lean String; the fixed regular expressions of the
  source are implemented directly as scanners over the character list, with
  Python re.findall left-to-right non-overlapping semantics.  The regex
  character classes w, s, [a-z], [A-Z], digits are modeled at ASCII level
  (all concrete inputs evaluated in theorems below are ASCII).
* Python sets are modeled as first-occurrence-ordered duplicate-free lists;
  only cardinalities and membership of these sets enter any score.
-/

namespace ATSScorer

/-! ## Character classes and basic scanners -/

/-- Model of the regex class backslash-s (Python whitespace). -/
def isPyWs (c : Char) : Bool :=
  c = ' ' || c = '\t' || c = '\n' || c = '\r' || c = '\x0b' || c = '\x0c'

/-- Model of the regex class backslash-w (ASCII word character). -/
def isWordChar (c : Char) : Bool := c.isAlphanum || c = '_'

def isLowerAZ (c : Char) : Bool := 'a' ≤ c && c ≤ 'z'

def isUpperAZ (c : Char) : Bool := 'A' ≤ c && c ≤ 'Z'

def isDigitCh (c : Char) : Bool := c.isDigit

/-- Model of Python str.lower() (ASCII). -/
def lowerStr (s : String) : String := String.mk (s.toList.map Char.toLower)

/-- Length of the leading run of characters satisfying p. -/
def leadCount (p : Char → Bool) : List Char → Nat
  | [] => 0
  | c :: cs => if p c then leadCount p cs + 1 else 0

/-- Helper for runsOf: acc holds the current run, reversed. -/
def runsAux (p : Char → Bool) : List Char → List Char → List (List Char)
  | [], acc => if acc.isEmpty then [] else [acc.reverse]
  | c :: cs, acc =>
    if p c then runsAux p cs (c :: acc)
    else if acc.isEmpty then runsAux p cs [] else acc.reverse :: runsAux p cs []

/-- The maximal runs of characters satisfying p, in order. -/
def runsOf (p : Char → Bool) (l : List Char) : List (List Char) := runsAux p l []

/-- Substring containment, modeling the Python `in` test on strings. -/
def listContainsSub (hay pat : List Char) : Bool :=
  match hay with
  | [] => pat.isEmpty
  | _ :: cs => pat.isPrefixOf hay || listContainsSub cs pat

def strContains (hay pat : String) : Bool := listContainsSub hay.toList pat.toList

/-- Does the text contain a character satisfying p immediately followed by
one satisfying q?  (Models searches such as star-then-whitespace.) -/
def existsPair (p q : Char → Bool) : List Char → Bool
  | a :: b :: rest => (p a && q b) || existsPair p q (b :: rest)
  | _ => false

/-- re.findall for a fixed pattern: `m l` returns the length (at least 1) of
a match starting at the head of `l`, or none.  Scanning is left-to-right and
non-overlapping, exactly as re.findall; on failure the scan advances one
character.  Returns the list of matched segments. -/
def scanMatchesFuel (m : List Char → Option Nat) : Nat → List Char → List (List Char)
  | 0, _ => []
  | _, [] => []
  | fuel + 1, c :: cs =>
    match m (c :: cs) with
    | some n => ((c :: cs).take n) :: scanMatchesFuel m fuel ((c :: cs).drop (max n 1))
    | none => scanMatchesFuel m fuel cs

def scanMatches (m : List Char → Option Nat) (l : List Char) : List (List Char) :=
  scanMatchesFuel m l.length l

/-- Case-insensitive prefix test (the experience regexes use re.IGNORECASE). -/
def isPrefixCI : List Char → List Char → Bool
  | [], _ => true
  | _ :: _, [] => false
  | p :: ps, c :: cs => (p.toLower = c.toLower) && isPrefixCI ps cs

/-- Match a fixed literal word, case-insensitively, at the head. -/
def matchLitCI (w : String) (l : List Char) : Option Nat :=
  if isPrefixCI w.toList l then some w.toList.length else none

/-- After a match of length n, greedily consume one optional letter s
(models a trailing `s?` in the pattern). -/
def matchOptS (w : String) (l : List Char) : Option Nat :=
  match matchLitCI w l with
  | some n =>
    match (l.drop n).head? with
    | some c => if c.toLower = 's' then some (n + 1) else some n
    | none => some n
  | none => none

/-- Ordered alternation of matchers (regex alternation). -/
def matchAlts (ms : List (List Char → Option Nat)) (l : List Char) : Option Nat :=
  match ms with
  | [] => none
  | m :: rest =>
    match m l with
    | some n => some n
    | none => matchAlts rest l

/-! ## The seven achievement-metric regexes of calculate_experience_quality -/

/-- Pattern digits-then-percent. -/
def matchPercent (l : List Char) : Option Nat :=
  let d := leadCount isDigitCh l
  if d = 0 then none
  else if (l.drop d).head? = some '%' then some (d + 1) else none

/-- Pattern dollar, then at least one digit or comma, then optional K, M or B
(case-insensitive). -/
def matchMoney (l : List Char) : Option Nat :=
  match l with
  | '$' :: rest =>
    let d := leadCount (fun c => c.isDigit || c = ',') rest
    if d = 0 then none
    else
      match (rest.drop d).head? with
      | some c =>
        if c.toLower = 'k' || c.toLower = 'm' || c.toLower = 'b' then some (1 + d + 1)
        else some (1 + d)
      | none => some (1 + d)
  | _ => none

/-- Pattern digits, optional whitespace, then one of the given word
alternatives. -/
def matchNumGapWord (after : List Char → Option Nat) (l : List Char) : Option Nat :=
  let d := leadCount isDigitCh l
  if d = 0 then none
  else
    let rest := l.drop d
    let w := leadCount isPyWs rest
    match after (rest.drop w) with
    | some m => some (d + w + m)
    | none => none

/-- Pattern improvement-verb, whitespace, optional `by` plus whitespace,
then digits. -/
def matchImprovement (l : List Char) : Option Nat :=
  match matchAlts
      [matchLitCI ("increased"), matchLitCI ("decreased"), matchLitCI ("improved"),
       matchLitCI ("reduced"), matchLitCI ("grew"), matchLitCI ("saved")] l with
  | none => none
  | some v =>
    let rest := l.drop v
    let w := leadCount isPyWs rest
    if w = 0 then none
    else
      let rest2 := rest.drop w
      let withBy : Option Nat :=
        if isPrefixCI ("by".toList) rest2 then
          let rest3 := rest2.drop 2
          let w2 := leadCount isPyWs rest3
          if w2 = 0 then none
          else
            let d := leadCount isDigitCh (rest3.drop w2)
            if d = 0 then none else some (2 + w2 + d)
        else none
      match withBy with
      | some n => some (v + w + n)
      | none =>
        let d := leadCount isDigitCh rest2
        if d = 0 then none else some (v + w + d)

/-- Tail of the experience-duration pattern: years or months (optional s),
optional whitespace, then `experience` or `of`. -/
def matchYearsOf (l : List Char) : Option Nat :=
  match matchAlts [matchOptS ("year"), matchOptS ("month")] l with
  | none => none
  | some n =>
    let w := leadCount isPyWs (l.drop n)
    match matchAlts [matchLitCI ("experience"), matchLitCI ("of")] ((l.drop n).drop w) with
    | some m => some (n + w + m)
    | none => none

/-- Pattern stem with an optional suffix from the alternation (greedy),
for the result-oriented-language regexes. -/
def matchStem (stem : String) (sufs : List String) (l : List Char) : Option Nat :=
  match matchLitCI stem l with
  | none => none
  | some n =>
    match matchAlts (sufs.map (fun s => matchLitCI s)) (l.drop n) with
    | some m => some (n + m)
    | none => some n

/-! ## Python rounding, modeled exactly (round half to even) -/

/-- Python round(x) to an integer: nearest, ties to even. -/
def pythonRound (q : ℚ) : ℤ :=
  if q - (⌊q⌋ : ℚ) < 1 / 2 then ⌊q⌋
  else if (1 : ℚ) / 2 < q - (⌊q⌋ : ℚ) then ⌊q⌋ + 1
  else if ⌊q⌋ % 2 = 0 then ⌊q⌋ else ⌊q⌋ + 1

/-- Python round(x, 1): nearest multiple of one tenth, ties to even. -/
def roundTo1 (q : ℚ) : ℚ := (pythonRound (q * 10) : ℚ) / 10

/-! ## Static configuration tables (ats_scorer.py lines 13-30) -/

/-- The fixed action-verb vocabulary (source lines 13-20).  Note it has 35
entries. -/
def ACTION_VERBS : List String :=
  ["achieved", "accomplished", "administered", "analyzed", "built", "collaborated",
   "contributed", "coordinated", "created", "delivered", "designed", "developed",
   "directed", "enhanced", "established", "executed", "generated", "implemented",
   "improved", "increased", "initiated", "launched", "led", "managed", "optimized",
   "organized", "oversaw", "planned", "produced", "reduced", "resolved", "streamlined",
   "supervised", "trained", "transformed"]

def IMPORTANT_SECTIONS : List String :=
  ["experience", "education", "skills", "summary", "objective"]

/-! ## Keyword analyzer (calculate_keyword_score, lines 35-87) -/

/-- The word tokens of a string: maximal runs of word characters. -/
def word_runs (s : String) : List String :=
  (runsOf isWordChar s.toList).map (fun l => String.mk l)

/-- Model of re.search of word-boundary, w, word-boundary for a word w made
of word characters: w occurs as a complete word token. -/
def wholeWordIn (w : String) (s : String) : Bool := (word_runs s).contains w

def action_verbs_found_of (resume_text : String) : List String :=
  ACTION_VERBS.filter (fun v => wholeWordIn v (lowerStr resume_text))

def action_verbs_missing_of (resume_text : String) : List String :=
  ACTION_VERBS.filter (fun v => !(wholeWordIn v (lowerStr resume_text)))

/-- action_verb_score = min(found/10, 1) * 25 (source line 57). -/
def action_verb_score_of (resume_text : String) : ℚ :=
  min (((action_verbs_found_of resume_text).length : ℚ) / 10) 1 * 25

/-- The stop-word set of calculate_keyword_score (source line 64). -/
def COMMON_WORDS_KEYWORD : List String :=
  ["the", "a", "an", "and", "or", "but", "in", "on", "at", "to", "for", "of",
   "with", "by", "is", "are", "was", "were", "be", "been", "being", "have",
   "has", "had", "do", "does", "did", "will", "would", "could", "should",
   "may", "might", "must", "shall", "can", "need", "dare", "ought", "used",
   "this", "that", "these", "those", "we", "you", "they", "it", "i", "he",
   "she", "who", "what", "which", "when", "where", "why", "how", "all",
   "each", "every", "both", "few", "more", "most", "other", "some", "such",
   "no", "nor", "not", "only", "own", "same", "so", "than", "too", "very",
   "just", "also", "as", "if", "then", "because", "while", "although",
   "though", "after", "before", "since", "until", "unless", "about", "above",
   "across", "against", "along", "among", "around", "behind", "below",
   "beneath", "beside", "between", "beyond", "during", "except", "inside",
   "into", "near", "off", "onto", "out", "outside", "over", "past",
   "through", "throughout", "toward", "under", "underneath", "up", "upon",
   "within", "without"]

/-- Model of re.findall of word-boundary, three-or-more lowercase letters,
word-boundary: the word tokens that are all lowercase letters and have
length at least 3. -/
def alpha_words (s : String) : List String :=
  (runsOf isWordChar s.toList).filterMap
    (fun r => if 3 ≤ r.length && r.all isLowerAZ then some (String.mk r) else none)

/-- jd_words = set(findall(jd_lower)) minus common_words (source line 66),
as a first-occurrence-ordered duplicate-free list. -/
def jd_words_kw (jd : String) : List String :=
  ((alpha_words (lowerStr jd)).eraseDups).filter
    (fun w => !(COMMON_WORDS_KEYWORD.contains w))

/-- resume_words = set(findall(resume_lower)) (source line 67). -/
def resume_words_kw (resume_text : String) : List String :=
  (alpha_words (lowerStr resume_text)).eraseDups

def kw_matched (resume_text jd : String) : List String :=
  (jd_words_kw jd).filter (fun w => (resume_words_kw resume_text).contains w)

def kw_missing (resume_text jd : String) : List String :=
  (jd_words_kw jd).filter (fun w => !((resume_words_kw resume_text).contains w))

/-- Python truthiness of `if job_description:` - None and the empty string
are both falsy. -/
def jdTruthy : Option String → Option String
  | some jd => if jd = "" then none else some jd
  | none => none

/-- jd_match_score (source lines 60-78): 15 without a (truthy) job
description; with one, matched / |jd vocabulary| * 25, or the initial 0 when
the jd vocabulary is empty. -/
def jd_match_score_of (resume_text : String) (job_description : Option String) : ℚ :=
  match jdTruthy job_description with
  | none => 15
  | some j =>
    if jd_words_kw j = [] then 0
    else ((kw_matched resume_text j).length : ℚ) / ((jd_words_kw j).length : ℚ) * 25

/-- Python str.split(): maximal runs of non-whitespace. -/
def py_words (s : String) : List (List Char) :=
  runsOf (fun c => !isPyWs c) s.toList

def word_count (s : String) : Nat := (py_words s).length

/-- keyword_density (source lines 81-84): percentage of words longer than 5
characters, rounded to one decimal; 0 when there are no words. -/
def keyword_density_of (resume_text : String) : ℚ :=
  if py_words resume_text = [] then 0
  else
    roundTo1 (((py_words resume_text).countP (fun w => decide (5 < w.length)) : ℚ) /
      ((py_words resume_text).length : ℚ) * 100)

structure KeywordDetails where
  action_verbs_found : List String
  action_verbs_missing : List String
  keyword_density : ℚ
  matched_keywords : List String
  missing_keywords : List String

/-- calculate_keyword_score (source lines 35-87). -/
def calculate_keyword_score (resume_text : String) (job_description : Option String) :
    ℚ × KeywordDetails :=
  (action_verb_score_of resume_text + jd_match_score_of resume_text job_description,
   ⟨action_verbs_found_of resume_text,
    action_verbs_missing_of resume_text,
    keyword_density_of resume_text,
    (match jdTruthy job_description with
     | some j => (kw_matched resume_text j).take 20
     | none => []),
    (match jdTruthy job_description with
     | some j => (kw_missing resume_text j).take 20
     | none => [])⟩)

/-! ## Formatting analyzer (calculate_formatting_score, lines 89-139) -/

/-- Model of re.search of word-boundary, section name, optional s,
word-boundary (source line 104). -/
def sectionFound (sec : String) (text_lower : String) : Bool :=
  (word_runs text_lower).any (fun t => t = sec || t = sec ++ "s")

def sections_found_count (resume_text : String) : Nat :=
  (IMPORTANT_SECTIONS.filter (fun sec => sectionFound sec (lowerStr resume_text))).length

/-- The lines of the text (dot does not match newline in the table regex). -/
def linesOf : List Char → List (List Char)
  | [] => [[]]
  | c :: cs =>
    if c = '\n' then [] :: linesOf cs
    else
      match linesOf cs with
      | l :: ls => (c :: l) :: ls
      | [] => [[c]]

/-- findall of pipe, anything, pipe, anything, pipe: with a greedy dot that
excludes newlines this yields exactly one match per line containing at
least three pipe characters. -/
def tables_count (resume_text : String) : Nat :=
  ((linesOf resume_text.toList).filter
    (fun l => decide (3 ≤ l.countP (fun c => c = '|')))).length

/-- The punctuation whitelist of the special-character class
(source line 28). -/
def specialWhitelist : List Char :=
  ['.', ',', ';', ':', '-', '(', ')', '@', '/', Char.ofNat 39, '"', '!', '?',
   '#', '&', '*', '+', '=']

/-- A character matching the negated class: not a word character, not
whitespace, not whitelisted punctuation.  Each such character is one
findall match. -/
def isSpecialCh (c : Char) : Bool :=
  !(isWordChar c || isPyWs c || specialWhitelist.contains c)

def special_count (resume_text : String) : Nat :=
  resume_text.toList.countP isSpecialCh

/-- findall of ten or more consecutive uppercase letters: one greedy match
per maximal uppercase run of length at least 10. -/
def caps_count (resume_text : String) : Nat :=
  (scanMatches
    (fun l => let d := leadCount isUpperAZ l; if 10 ≤ d then some d else none)
    resume_text.toList).length

/-- The mis-encoded bullet character sequence of the source (line 132),
three characters: U+00E2, U+20AC, U+00A2. -/
def bulletChars : List Char := [Char.ofNat 0xE2, Char.ofNat 0x20AC, Char.ofNat 0xA2]

/-- Dash, at least one whitespace, then an uppercase letter (re.search). -/
def hasDashWsUpper : List Char → Bool
  | [] => false
  | c :: cs =>
    (c = '-' &&
      (decide (1 ≤ leadCount isPyWs cs) &&
        (match (cs.drop (leadCount isPyWs cs)).head? with
         | some u => isUpperAZ u
         | none => false))) || hasDashWsUpper cs

/-- any(re.search(p) for p in bullet_patterns) (source lines 132-133). -/
def has_bullets (resume_text : String) : Bool :=
  listContainsSub resume_text.toList bulletChars ||
  existsPair (fun c => c = '*') isPyWs resume_text.toList ||
  hasDashWsUpper resume_text.toList ||
  existsPair (fun c => c.isDigit) (fun c => c = '.') resume_text.toList

/-- The accumulated penalty (source lines 115-136): per-issue-category
contribution capped at 10, then the word-count and bullet penalties. -/
def formatting_penalty (resume_text : String) : Nat :=
  (if 0 < tables_count resume_text then min (5 * tables_count resume_text) 10 else 0) +
  (if 0 < special_count resume_text then min (2 * special_count resume_text) 10 else 0) +
  (if 0 < caps_count resume_text then min (3 * caps_count resume_text) 10 else 0) +
  (if word_count resume_text < 200 then 5
   else if 1500 < word_count resume_text then 3 else 0) +
  (if has_bullets resume_text then 0 else 2)

/-- Model of Python str.title() for the single lowercase section names. -/
def pyTitle (s : String) : String :=
  match s.toList with
  | [] => String.mk []
  | c :: cs => String.mk (c.toUpper :: cs)

structure FormattingDetails where
  issues : List String
  suggestions : List String
  section_status : List (String × Bool)

/-- calculate_formatting_score (source lines 89-139). -/
def calculate_formatting_score (resume_text : String) : ℚ × FormattingDetails :=
  (min (max 0 ((25 : ℚ) +
      ((sections_found_count resume_text : ℚ) / (IMPORTANT_SECTIONS.length : ℚ)) * 10 -
      (formatting_penalty resume_text : ℚ))) 25,
   ⟨(if 0 < tables_count resume_text then
       [("Found " ++ toString (tables_count resume_text) ++ " tables instances")]
     else []) ++
    (if 0 < special_count resume_text then
       [("Found " ++ toString (special_count resume_text) ++ " special chars instances")]
     else []) ++
    (if 0 < caps_count resume_text then
       [("Found " ++ toString (caps_count resume_text) ++ " excessive caps instances")]
     else []),
    (IMPORTANT_SECTIONS.filterMap
      (fun sec => if sectionFound sec (lowerStr resume_text) then none
                  else some ("Add a \x27" ++ pyTitle sec ++ "\x27 section"))) ++
    (if word_count resume_text < 200 then
       ["Resume appears too short. Add more details about your experience."]
     else if 1500 < word_count resume_text then
       ["Resume may be too long. Consider condensing to 1-2 pages."]
     else []) ++
    (if has_bullets resume_text then []
     else ["Use bullet points to list achievements and responsibilities"]),
    IMPORTANT_SECTIONS.map (fun sec => (sec, sectionFound sec (lowerStr resume_text)))⟩)

/-! ## Skill coverage analyzer (calculate_skill_coverage, lines 141-186) -/

/-- The fixed skill taxonomy (source lines 152-159). -/
def skill_categories_table : List (String × List String) :=
  [("programming",
    ["python", "java", "javascript", "c++", "c#", "ruby", "go", "rust", "typescript"]),
   ("data_science",
    ["machine learning", "deep learning", "data analysis", "tensorflow", "pytorch",
     "pandas", "numpy"]),
   ("web", ["html", "css", "react", "angular", "vue", "node.js", "django", "flask"]),
   ("cloud", ["aws", "azure", "gcp", "docker", "kubernetes"]),
   ("database", ["sql", "mysql", "postgresql", "mongodb", "redis"]),
   ("soft_skills",
    ["leadership", "communication", "teamwork", "problem solving",
     "project management"])]

structure SkillCatInfo where
  found : List String
  count : Nat

structure SkillDetails where
  total_skills : Nat
  skill_categories : List (String × SkillCatInfo)
  recommendations : List String

def category_matches (skills_lower : List String) : List (String × SkillCatInfo) :=
  skill_categories_table.map
    (fun p => (p.1, ⟨p.2.filter (fun s => skills_lower.contains s),
                     (p.2.filter (fun s => skills_lower.contains s)).length⟩))

def category_count (skills_lower : List String) (name : String) : Nat :=
  match skill_categories_table.lookup name with
  | some toks => (toks.filter (fun s => skills_lower.contains s)).length
  | none => 0

def categories_with_skills (skills_lower : List String) : Nat :=
  (category_matches skills_lower).countP (fun p => decide (0 < p.2.count))

/-- calculate_skill_coverage (source lines 141-186); the job_description
parameter is accepted and unused, as in the source. -/
def calculate_skill_coverage (skills : List String) (_job_description : Option String) :
    ℚ × SkillDetails :=
  let skills_lower := skills.map (fun s => lowerStr s)
  let base_score : ℚ := min ((skills.length : ℚ) / 10) 1 * 15
  let diversity_bonus : ℚ :=
    ((categories_with_skills skills_lower : ℚ) / (skill_categories_table.length : ℚ)) * 10
  (min (base_score + diversity_bonus) 25,
   ⟨skills.length,
    category_matches skills_lower,
    (if category_count skills_lower ("programming") = 0 then
       ["Add programming languages to your skills"]
     else []) ++
    (if category_count skills_lower ("soft_skills") = 0 then
       ["Include soft skills like leadership and communication"]
     else []) ++
    (if skills.length < 5 then
       ["Add more relevant skills to improve your profile"]
     else [])⟩)

/-! ## Experience quality analyzer (calculate_experience_quality, lines 188-234) -/

/-- The seven metric regex families with their labels (source lines 199-207),
matched with re.IGNORECASE. -/
def metric_patterns : List ((List Char → Option Nat) × String) :=
  [(matchPercent, "percentage"),
   (matchMoney, "monetary"),
   (matchNumGapWord
      (matchAlts [matchOptS ("user"), matchOptS ("customer"), matchOptS ("client")]),
    "user_impact"),
   (matchNumGapWord
      (matchAlts [matchOptS ("project"), matchOptS ("application"), matchOptS ("system")]),
    "project_count"),
   (matchImprovement, "improvement"),
   (matchNumGapWord
      (matchAlts [matchLitCI ("team"), matchLitCI ("people"), matchLitCI ("employees"),
                  matchLitCI ("members")]),
    "team_size"),
   (matchNumGapWord matchYearsOf, "experience_duration")]

/-- For each family, the full findall match list with its label. -/
def experience_matches (resume_text : String) : List (List String × String) :=
  metric_patterns.map
    (fun pt => ((scanMatches pt.1 resume_text.toList).map (fun m => String.mk m), pt.2))

/-- The loop of source lines 209-213: per family, record the first 3 matches
into metrics_found. -/
def metricsSamples : List (List String × String) → List (String × String)
  | [] => []
  | p :: ps => (p.1.take 3).map (fun m => (m, p.2)) ++ metricsSamples ps

def metrics_found_of (resume_text : String) : List (String × String) :=
  metricsSamples (experience_matches resume_text)

/-- details['achievements']: the total accumulated match count. -/
def achievements_of (resume_text : String) : Nat :=
  ((experience_matches resume_text).map (fun p => p.1.length)).sum

/-- metrics_score = min(len(metrics_found)/5, 1) * 15 (source line 216):
computed from the per-family-capped sample list. -/
def metrics_score_of (resume_text : String) : ℚ :=
  min (((metrics_found_of resume_text).length : ℚ) / 5) 1 * 15

/-- The six result-oriented-language regexes (source lines 219-222). -/
def result_patterns : List (List Char → Option Nat) :=
  [matchStem ("result") (["ed", "ing"]),
   matchStem ("achiev") (["ed", "ing"]),
   matchStem ("accomplish") (["ed", "ing"]),
   matchStem ("deliver") (["ed", "ing"]),
   matchStem ("complet") (["ed", "ing"]),
   matchStem ("success") (["ful"])]

def result_count_of (resume_text : String) : Nat :=
  (result_patterns.map (fun m => (scanMatches m resume_text.toList).length)).sum

def result_bonus_of (resume_text : String) : ℚ :=
  min ((result_count_of resume_text : ℚ) / 5) 1 * 10

structure ExperienceDetails where
  metrics_found : List (String × String)
  achievements : Nat
  suggestions : List String

/-- calculate_experience_quality (source lines 188-234). -/
def calculate_experience_quality (resume_text : String) : ℚ × ExperienceDetails :=
  (min (metrics_score_of resume_text + result_bonus_of resume_text) 25,
   ⟨metrics_found_of resume_text,
    achievements_of resume_text,
    (if metrics_found_of resume_text = [] then
       ["Add quantifiable achievements (e.g., \x27Increased sales by 25%\x27)"]
     else []) ++
    (if result_count_of resume_text < 3 then
       ["Use more result-oriented language to describe achievements"]
     else [])⟩)

/-! ## Aggregator (calculate_ats_score, lines 236-292) -/

/-- The grade letter thresholds (source lines 252-266). -/
def grade_letter (t : ℤ) : String :=
  if 85 ≤ t then "A"
  else if 70 ≤ t then "B"
  else if 55 ≤ t then "C"
  else if 40 ≤ t then "D"
  else "F"

def grade_text_of (t : ℤ) : String :=
  if 85 ≤ t then "Excellent"
  else if 70 ≤ t then "Good"
  else if 55 ≤ t then "Average"
  else if 40 ≤ t then "Needs Improvement"
  else "Poor"

structure ScoreBreakdown where
  keyword_score : ℚ
  formatting_score : ℚ
  skill_score : ℚ
  experience_score : ℚ

structure ATSResult where
  total_score : ℤ
  grade : String
  grade_text : String
  breakdown : ScoreBreakdown
  keywords : KeywordDetails
  formatting : FormattingDetails
  skills : SkillDetails
  experience : ExperienceDetails
  suggestions : List String
  missing_keywords : List String

/-- calculate_ats_score (source lines 236-292): totals the four unrounded
sub-scores, rounds and clamps to [0, 100], grades, and reports each
sub-score rounded to one decimal. -/
def calculate_ats_score (resume_text : String) (skills : List String)
    (job_description : Option String) : ATSResult :=
  let kw := calculate_keyword_score resume_text job_description
  let fm := calculate_formatting_score resume_text
  let sk := calculate_skill_coverage skills job_description
  let ex := calculate_experience_quality resume_text
  let total : ℤ := min (max (pythonRound (kw.1 + fm.1 + sk.1 + ex.1)) 0) 100
  ⟨total,
   grade_letter total,
   grade_text_of total,
   ⟨roundTo1 kw.1, roundTo1 fm.1, roundTo1 sk.1, roundTo1 ex.1⟩,
   kw.2, fm.2, sk.2, ex.2,
   (fm.2.suggestions ++ sk.2.recommendations ++ ex.2.suggestions).take 10,
   kw.2.missing_keywords.take 15⟩

/-! ## Job matcher (calculate_job_match, lines 294-362) -/

/-- The stop-word set of calculate_job_match (source line 302), distinct
from the keyword analyzer's. -/
def COMMON_WORDS_MATCH : List String :=
  ["the", "a", "an", "and", "or", "but", "in", "on", "at", "to", "for", "of",
   "with", "by", "is", "are", "was", "were", "be", "been", "have", "has",
   "had", "will", "would", "should", "must", "can", "this", "that", "we",
   "you", "they", "it", "your", "our", "their", "who", "what", "which",
   "when", "where", "as", "if", "about", "into", "through", "during",
   "before", "after", "above", "below", "between", "under", "again",
   "further", "then", "once", "here", "there", "all", "each", "few", "more",
   "most", "other", "some", "such", "no", "not", "only", "same", "than",
   "too", "very", "just", "also", "work", "working", "job", "position",
   "role", "looking", "seeking", "required", "requirements",
   "qualifications", "responsibilities", "experience", "years", "ability",
   "skills", "strong", "excellent", "preferred", "including", "etc", "plus",
   "bonus"]

/-- jd_words (source line 305): the filtered token list, duplicates kept. -/
def jd_words_match (jd : String) : List String :=
  (alpha_words (lowerStr jd)).filter (fun w => !(COMMON_WORDS_MATCH.contains w))

/-- Stable insertion into a descending-by-key list: equal keys keep the
existing elements first. -/
def insertDesc (key : String → Nat) (x : String) : List String → List String
  | [] => [x]
  | y :: ys => if key y < key x then x :: y :: ys else y :: insertDesc key x ys

/-- Stable descending sort by key, modeling Counter.most_common ordering
(count descending, ties in first-insertion order). -/
def sortDesc (key : String → Nat) : List String → List String
  | [] => []
  | x :: xs => insertDesc key x (sortDesc key xs)

/-- important_keywords = the 30 most frequent distinct jd words
(source lines 306-307). -/
def important_keywords_of (jd : String) : List String :=
  (sortDesc (fun w => (jd_words_match jd).count w) ((jd_words_match jd).eraseDups)).take 30

/-- Keyword partition (source lines 313-317): plain substring test against
the lowercased resume text. -/
def matched_keywords_of (resume_text jd : String) : List String :=
  (important_keywords_of jd).filter (fun k => strContains (lowerStr resume_text) k)

def missing_keywords_of (resume_text jd : String) : List String :=
  (important_keywords_of jd).filter (fun k => !(strContains (lowerStr resume_text) k))

/-- The fixed skill-indicator tokens (source line 323). -/
def SKILL_INDICATORS : List String :=
  ["python", "java", "javascript", "react", "angular", "node", "sql", "aws",
   "azure", "docker", "kubernetes", "machine learning", "data", "analysis",
   "excel", "communication", "leadership", "agile", "scrum", "git", "api",
   "rest", "cloud", "linux", "tensorflow", "pytorch"]

def jd_skills_of (jd : String) : List String :=
  SKILL_INDICATORS.filter (fun s => strContains (lowerStr jd) s)

def matched_skills_of (resume_skills : List String) (jd : String) : List String :=
  (jd_skills_of jd).filter
    (fun s => (resume_skills.map (fun r => lowerStr r)).any (fun rs => strContains rs s))

def missing_skills_of (resume_skills : List String) (jd : String) : List String :=
  (jd_skills_of jd).filter
    (fun s => !((resume_skills.map (fun r => lowerStr r)).any (fun rs => strContains rs s)))

/-- keyword_match = matched / max(|important_keywords|, 1) * 100
(source line 333). -/
def keyword_match_of (resume_text jd : String) : ℚ :=
  ((matched_keywords_of resume_text jd).length : ℚ) /
    ((max (important_keywords_of jd).length 1 : ℕ) : ℚ) * 100

/-- skill_match (source line 334): the guarded ratio, or the constant 50
fallback when no skill indicator occurs in the job description. -/
def skill_match_of (resume_skills : List String) (jd : String) : ℚ :=
  if jd_skills_of jd = [] then 50
  else ((matched_skills_of resume_skills jd).length : ℚ) /
    ((max (jd_skills_of jd).length 1 : ℕ) : ℚ) * 100

def overall_match_of (resume_text : String) (resume_skills : List String)
    (jd : String) : ℚ :=
  keyword_match_of resume_text jd * (6 / 10) + skill_match_of resume_skills jd * (4 / 10)

/-- Tier selection (source lines 339-350), on the unrounded overall match. -/
def match_level_of (ov : ℚ) : String :=
  if 75 ≤ ov then "Strong Match"
  else if 50 ≤ ov then "Moderate Match"
  else if 30 ≤ ov then "Partial Match"
  else "Low Match"

def recommendation_of (ov : ℚ) : String :=
  if 75 ≤ ov then "Your resume is well-aligned with this position. Consider applying!"
  else if 50 ≤ ov then
    "You have relevant experience. Tailor your resume to highlight matching skills."
  else if 30 ≤ ov then
    "Some skills align. Focus on transferable skills and consider upskilling."
  else "This role may require significant skill development. Consider related positions."

structure MatchResult where
  overall_match : ℚ
  match_level : String
  keyword_match : ℚ
  skill_match : ℚ
  matched_keywords : List String
  missing_keywords : List String
  matched_skills : List String
  missing_skills : List String
  recommendation : String

/-- calculate_job_match (source lines 294-362). -/
def calculate_job_match (resume_text : String) (resume_skills : List String)
    (job_description : String) : MatchResult :=
  ⟨roundTo1 (overall_match_of resume_text resume_skills job_description),
   match_level_of (overall_match_of resume_text resume_skills job_description),
   roundTo1 (keyword_match_of resume_text job_description),
   roundTo1 (skill_match_of resume_skills job_description),
   (matched_keywords_of resume_text job_description).take 15,
   (missing_keywords_of resume_text job_description).take 15,
   matched_skills_of resume_skills job_description,
   (missing_skills_of resume_skills job_description).take 10,
   recommendation_of (overall_match_of resume_text resume_skills job_description)⟩

/-- Rank of a grade letter in the F < D < C < B < A ordering. -/
def gradeRank (g : String) : ℕ :=
  if g = "A" then 4 else if g = "B" then 3 else if g = "C" then 2
  else if g = "D" then 1 else 0

/-! ## Concrete inputs used in the claim theorems -/

def rtC2 : String := "10% 20% 30% 40% 50% 60%"

def rtC3 : String := "managed developed led"

def rtC10 : String := "Experience Education Skills Summary kubernetes %"

def skillsC10 : List String := ["Python", "AWS"]

def jdC10 : Option String := some ("kubernetes gardening astronomy juggling")

/-! ## Helper lemmas -/

lemma aux_minratio_mul_bounds (n : ℕ) (c m : ℚ) (hc : 0 < c) (hm : 0 ≤ m) :
    0 ≤ min ((n : ℚ) / c) 1 * m ∧ min ((n : ℚ) / c) 1 * m ≤ m := by
  have h0 : 0 ≤ min ((n : ℚ) / c) 1 :=
    le_min (div_nonneg (Nat.cast_nonneg n) hc.le) zero_le_one
  refine ⟨mul_nonneg h0 hm, ?_⟩
  have h1 : min ((n : ℚ) / c) 1 ≤ 1 := min_le_right _ _
  calc min ((n : ℚ) / c) 1 * m ≤ 1 * m := mul_le_mul_of_nonneg_right h1 hm
    _ = m := one_mul m

lemma aux_jd_match_bounds (resume_text : String) (job_description : Option String) :
    0 ≤ jd_match_score_of resume_text job_description ∧
      jd_match_score_of resume_text job_description ≤ 25 := by
  unfold jd_match_score_of
  split
  · norm_num
  · rename_i j hj
    split_ifs with h
    · norm_num
    · have hle : ((kw_matched resume_text j).length : ℚ) ≤ ((jd_words_kw j).length : ℚ) := by
        exact_mod_cast List.length_filter_le _ _
      have hpos : (0 : ℚ) < ((jd_words_kw j).length : ℚ) := by
        exact_mod_cast List.length_pos.mpr h
      have hr : ((kw_matched resume_text j).length : ℚ) / ((jd_words_kw j).length : ℚ) ≤ 1 :=
        (div_le_one hpos).mpr hle
      have hr0 : 0 ≤ ((kw_matched resume_text j).length : ℚ) / ((jd_words_kw j).length : ℚ) :=
        div_nonneg (Nat.cast_nonneg _) hpos.le
      constructor
      · positivity
      · nlinarith

lemma aux_keyword_bounds (resume_text : String) (job_description : Option String) :
    0 ≤ (calculate_keyword_score resume_text job_description).1 ∧
      (calculate_keyword_score resume_text job_description).1 ≤ 50 := by
  have ha := aux_minratio_mul_bounds (action_verbs_found_of resume_text).length 10 25
    (by norm_num) (by norm_num)
  have hb := aux_jd_match_bounds resume_text job_description
  have hsum : (calculate_keyword_score resume_text job_description).1 =
      min (((action_verbs_found_of resume_text).length : ℚ) / 10) 1 * 25 +
        jd_match_score_of resume_text job_description := rfl
  rw [hsum]
  exact ⟨add_nonneg ha.1 hb.1, by linarith [ha.2, hb.2]⟩

lemma aux_formatting_bounds (resume_text : String) :
    0 ≤ (calculate_formatting_score resume_text).1 ∧
      (calculate_formatting_score resume_text).1 ≤ 25 :=
  ⟨le_min (le_max_left 0 _) (by norm_num), min_le_right _ _⟩

lemma aux_skill_bounds (skills : List String) (job_description : Option String) :
    0 ≤ (calculate_skill_coverage skills job_description).1 ∧
      (calculate_skill_coverage skills job_description).1 ≤ 25 := by
  have hbase := aux_minratio_mul_bounds skills.length 10 15 (by norm_num) (by norm_num)
  have hdiv : (0 : ℚ) ≤
      ((categories_with_skills (skills.map (fun s => lowerStr s)) : ℚ) /
        (skill_categories_table.length : ℚ)) * 10 := by positivity
  exact ⟨le_min (add_nonneg hbase.1 hdiv) (by norm_num), min_le_right _ _⟩

lemma aux_experience_bounds (resume_text : String) :
    0 ≤ (calculate_experience_quality resume_text).1 ∧
      (calculate_experience_quality resume_text).1 ≤ 25 := by
  have hm := aux_minratio_mul_bounds (metrics_found_of resume_text).length 5 15
    (by norm_num) (by norm_num)
  have hr := aux_minratio_mul_bounds (result_count_of resume_text) 5 10
    (by norm_num) (by norm_num)
  exact ⟨le_min (add_nonneg hm.1 hr.1) (by norm_num), min_le_right _ _⟩

lemma aux_pythonRound_bounds (q : ℚ) (n : ℤ) (h0 : 0 ≤ q) (hn : q ≤ (n : ℚ)) :
    0 ≤ pythonRound q ∧ pythonRound q ≤ n := by
  have hf0 : 0 ≤ ⌊q⌋ := Int.floor_nonneg.mpr h0
  have hfn : ⌊q⌋ ≤ n := by
    have h := Int.floor_mono hn
    rwa [Int.floor_intCast] at h
  have hfl : (⌊q⌋ : ℚ) ≤ q := Int.floor_le q
  unfold pythonRound
  split_ifs with h1 h2 h3
  · exact ⟨hf0, hfn⟩
  · have hlt : (⌊q⌋ : ℚ) < (n : ℚ) := by linarith
    have hz : ⌊q⌋ < n := by exact_mod_cast hlt
    exact ⟨by omega, by omega⟩
  · exact ⟨hf0, hfn⟩
  · have hhalf : (1 : ℚ) / 2 ≤ q - (⌊q⌋ : ℚ) := not_lt.mp h1
    have hlt : (⌊q⌋ : ℚ) < (n : ℚ) := by linarith
    have hz : ⌊q⌋ < n := by exact_mod_cast hlt
    exact ⟨by omega, by omega⟩

lemma aux_roundTo1_bounds (q : ℚ) (n : ℤ) (h0 : 0 ≤ q) (hn : q ≤ (n : ℚ)) :
    0 ≤ roundTo1 q ∧ roundTo1 q ≤ (n : ℚ) := by
  have h10 : 0 ≤ q * 10 := by linarith
  have h1n : q * 10 ≤ ((n * 10 : ℤ) : ℚ) := by push_cast; linarith
  obtain ⟨ha, hb⟩ := aux_pythonRound_bounds (q * 10) (n * 10) h10 h1n
  unfold roundTo1
  constructor
  · have hc : (0 : ℚ) ≤ (pythonRound (q * 10) : ℚ) := by exact_mod_cast ha
    linarith
  · have hc : ((pythonRound (q * 10) : ℤ) : ℚ) ≤ ((n * 10 : ℤ) : ℚ) := by exact_mod_cast hb
    push_cast at hc
    linarith

lemma aux_filter_length_add {α : Type} (p : α → Bool) (l : List α) :
    (l.filter p).length + (l.filter (fun a => !(p a))).length = l.length := by
  induction l with
  | nil => rfl
  | cons a t ih =>
    by_cases h : p a <;> simp [List.filter_cons, h] <;> omega

lemma aux_metricsSamples_length (l : List (List String × String)) :
    (metricsSamples l).length = (l.map (fun p => min 3 p.1.length)).sum := by
  induction l with
  | nil => rfl
  | cons p ps ih =>
    simp [metricsSamples, List.length_append, List.length_map, List.length_take, ih]

lemma aux_if_min (k n : ℕ) : (if 0 < n then min (k * n) 10 else 0) = min (k * n) 10 := by
  cases n with
  | zero => simp
  | succ m => simp

/-! ## Claim theorems -/

/-- Claim C1: for every resume_text, skills list and optional job_description,
the keyword sub-score lies in [0, 50], the formatting, skill and experience
sub-scores lie in [0, 25] (both as the raw analyzer outputs and as the
one-decimal-rounded breakdown entries of calculate_ats_score), and the
aggregated total_score lies in [0, 100]. -/
theorem C1_sub_scores_bounded (resume_text : String) (skills : List String)
    (job_description : Option String) :
    (0 ≤ (calculate_keyword_score resume_text job_description).1 ∧
      (calculate_keyword_score resume_text job_description).1 ≤ 50) ∧
    (0 ≤ (calculate_formatting_score resume_text).1 ∧
      (calculate_formatting_score resume_text).1 ≤ 25) ∧
    (0 ≤ (calculate_skill_coverage skills job_description).1 ∧
      (calculate_skill_coverage skills job_description).1 ≤ 25) ∧
    (0 ≤ (calculate_experience_quality resume_text).1 ∧
      (calculate_experience_quality resume_text).1 ≤ 25) ∧
    (0 ≤ (calculate_ats_score resume_text skills job_description).breakdown.keyword_score ∧
      (calculate_ats_score resume_text skills job_description).breakdown.keyword_score ≤ 50) ∧
    (0 ≤ (calculate_ats_score resume_text skills job_description).breakdown.formatting_score ∧
      (calculate_ats_score resume_text skills job_description).breakdown.formatting_score ≤ 25) ∧
    (0 ≤ (calculate_ats_score resume_text skills job_description).breakdown.skill_score ∧
      (calculate_ats_score resume_text skills job_description).breakdown.skill_score ≤ 25) ∧
    (0 ≤ (calculate_ats_score resume_text skills job_description).breakdown.experience_score ∧
      (calculate_ats_score resume_text skills job_description).breakdown.experience_score ≤ 25) ∧
    (0 ≤ (calculate_ats_score resume_text skills job_description).total_score ∧
      (calculate_ats_score resume_text skills job_description).total_score ≤ 100) := by
  have hk := aux_keyword_bounds resume_text job_description
  have hf := aux_formatting_bounds resume_text
  have hs := aux_skill_bounds skills job_description
  have he := aux_experience_bounds resume_text
  have hkb := aux_roundTo1_bounds _ 50 hk.1 (by exact_mod_cast hk.2)
  have hfb := aux_roundTo1_bounds _ 25 hf.1 (by exact_mod_cast hf.2)
  have hsb := aux_roundTo1_bounds _ 25 hs.1 (by exact_mod_cast hs.2)
  have heb := aux_roundTo1_bounds _ 25 he.1 (by exact_mod_cast he.2)
  refine ⟨hk, hf, hs, he, ⟨hkb.1, by exact_mod_cast hkb.2⟩, ⟨hfb.1, by exact_mod_cast hfb.2⟩,
    ⟨hsb.1, by exact_mod_cast hsb.2⟩, ⟨heb.1, by exact_mod_cast heb.2⟩,
    le_min (le_max_right _ 0) (by norm_num), min_le_right _ 100⟩

unseal Rat.add Rat.mul Rat.inv Rat.sub Rat.ofScientific in
/-- Claim C2 is false as stated: metrics_score is computed from the
per-family-capped sample list metrics_found, not from the total accumulated
achievement count.  A resume with six percentage metrics in one family has
achievements = 6 but metrics_score = min(3/5, 1) * 15 = 9, while the
claimed formula min(6/5, 1) * 15 gives 15. -/
theorem C2_counterexample :
    achievements_of rtC2 = 6 ∧
    metrics_score_of rtC2 = 9 ∧
    min ((achievements_of rtC2 : ℚ) / 5) 1 * 15 = 15 ∧
    metrics_score_of rtC2 ≠ min ((achievements_of rtC2 : ℚ) / 5) 1 * 15 ∧
    (calculate_experience_quality rtC2).1 = 9 := by decide

/-- Claim C2 (amended): the experience metrics sub-score equals
min(len(metrics_found)/5, 1) * 15 where metrics_found collects at most 3
sample matches per regex family, i.e. its length is the sum over the 7
families of min(3, family match count). -/
theorem C2_amended_metrics_score (resume_text : String) :
    metrics_score_of resume_text =
      min (((((experience_matches resume_text).map (fun p => min 3 p.1.length)).sum : ℕ) : ℚ) / 5)
        1 * 15 := by
  unfold metrics_score_of metrics_found_of
  rw [aux_metricsSamples_length]

unseal Rat.add Rat.mul Rat.inv Rat.sub Rat.ofScientific in
/-- Claim C3: with no job description the keyword score equals
min(found_action_verbs/10, 1) * 25 + 15, where found_action_verbs counts
the fixed action verbs matched whole-word case-insensitively; a resume
containing exactly the three action verbs managed, developed, led scores
22.5.  (The fixed vocabulary actually has 35 entries, not 34; this does not
affect the formula or the example.) -/
theorem C3_keyword_score_no_jd (resume_text : String) :
    (calculate_keyword_score resume_text none).1 =
      min (((action_verbs_found_of resume_text).length : ℚ) / 10) 1 * 25 + 15 ∧
    (action_verbs_found_of rtC3).length = 3 ∧
    (calculate_keyword_score rtC3 none).1 = 45 / 2 :=
  ⟨rfl, by decide, by decide⟩

lemma aux_gradeRank_eval (t : ℤ) :
    gradeRank (grade_letter t) =
      (if 85 ≤ t then 4 else if 70 ≤ t then 3 else if 55 ≤ t then 2
       else if 40 ≤ t then 1 else 0) := by
  unfold grade_letter
  split_ifs <;> decide

/-- Claim C4: the grade of calculate_ats_score is a function of total_score
only, via the fixed thresholds 85/70/55/40; the grade is monotone in
total_score for the A over B over C over D over F ordering, and the
boundaries are exact: 85 gives A, 84 gives B. -/
theorem C4_grade_function_monotone_boundaries :
    (∀ (resume_text : String) (skills : List String) (job_description : Option String),
      (calculate_ats_score resume_text skills job_description).grade =
        grade_letter (calculate_ats_score resume_text skills job_description).total_score) ∧
    (∀ s1 s2 : ℤ, s1 < s2 → gradeRank (grade_letter s1) ≤ gradeRank (grade_letter s2)) ∧
    grade_letter 85 = "A" ∧ grade_letter 84 = "B" := by
  refine ⟨fun _ _ _ => rfl, ?_, by decide, by decide⟩
  intro s1 s2 h
  rw [aux_gradeRank_eval, aux_gradeRank_eval]
  split_ifs <;> omega

/-- Witness for C4: the monotonicity hypothesis discharged at the concrete
pair 20 < 80. -/
theorem C4_witness : gradeRank (grade_letter 20) ≤ gradeRank (grade_letter 80) :=
  C4_grade_function_monotone_boundaries.2.1 20 80 (by decide)

/-- Claim C5: the formatting score equals
clamp(25 + (sections_found/5)*10 - total_penalty, 0, 25), where each of the
three regex issue categories contributes min(per-occurrence-value * count, 10)
to the penalty (individually capped before summation), together with the
word-count and missing-bullet penalties. -/
theorem C5_formatting_formula (resume_text : String) :
    (calculate_formatting_score resume_text).1 =
      min (max 0 ((25 : ℚ) + ((sections_found_count resume_text : ℚ) / 5) * 10 -
        ((min (5 * tables_count resume_text) 10 + min (2 * special_count resume_text) 10 +
          min (3 * caps_count resume_text) 10 +
          (if word_count resume_text < 200 then 5
           else if 1500 < word_count resume_text then 3 else 0) +
          (if has_bullets resume_text then 0 else 2) : ℕ) : ℚ))) 25 := by
  have hpen : formatting_penalty resume_text =
      min (5 * tables_count resume_text) 10 + min (2 * special_count resume_text) 10 +
        min (3 * caps_count resume_text) 10 +
        (if word_count resume_text < 200 then 5
         else if 1500 < word_count resume_text then 3 else 0) +
        (if has_bullets resume_text then 0 else 2) := by
    unfold formatting_penalty
    rw [aux_if_min 5, aux_if_min 2, aux_if_min 3]
  have hL : (calculate_formatting_score resume_text).1 =
      min (max 0 ((25 : ℚ) +
        ((sections_found_count resume_text : ℚ) / ((IMPORTANT_SECTIONS.length : ℕ) : ℚ)) * 10 -
        ((formatting_penalty resume_text : ℕ) : ℚ))) 25 := rfl
  have hlen : ((IMPORTANT_SECTIONS.length : ℕ) : ℚ) = 5 := by norm_num [IMPORTANT_SECTIONS]
  rw [hL, hpen, hlen]

unseal Rat.add Rat.mul Rat.inv Rat.sub Rat.ofScientific in
/-- Claim C6: calculate_ats_score is total on the degenerate input of an
empty resume and empty skill list: skill_score is 0, the formatting
suggestions are exactly the 5 missing-section suggestions plus the
short-resume and missing-bullet suggestions, the total score is the
non-negative integer 33, and the grade is F. -/
theorem C6_total_on_empty_input :
    (calculate_skill_coverage [] none).1 = 0 ∧
    (calculate_ats_score ("") [] none).breakdown.skill_score = 0 ∧
    (calculate_ats_score ("") [] none).formatting.suggestions =
      ["Add a \x27Experience\x27 section", "Add a \x27Education\x27 section",
       "Add a \x27Skills\x27 section", "Add a \x27Summary\x27 section",
       "Add a \x27Objective\x27 section",
       "Resume appears too short. Add more details about your experience.",
       "Use bullet points to list achievements and responsibilities"] ∧
    (calculate_ats_score ("") [] none).suggestions =
      ["Add a \x27Experience\x27 section", "Add a \x27Education\x27 section",
       "Add a \x27Skills\x27 section", "Add a \x27Summary\x27 section",
       "Add a \x27Objective\x27 section",
       "Resume appears too short. Add more details about your experience.",
       "Use bullet points to list achievements and responsibilities",
       "Add programming languages to your skills",
       "Include soft skills like leadership and communication",
       "Add more relevant skills to improve your profile"] ∧
    (calculate_ats_score ("") [] none).total_score = 33 ∧
    0 ≤ (calculate_ats_score ("") [] none).total_score ∧
    (calculate_ats_score ("") [] none).grade = "F" := by decide

unseal Rat.add Rat.mul Rat.inv Rat.sub Rat.ofScientific in
/-- Claim C7: calculate_job_match returns
overall_match = round(keyword_match * 0.6 + skill_match * 0.4, 1), selects
the tier by the fixed thresholds 75/50/30 with the fixed recommendation
sentences, and keyword_match = 100 with skill_match = 0 yields 60.0 and
Moderate Match. -/
theorem C7_job_match_formula (resume_text : String) (resume_skills : List String)
    (job_description : String) :
    (calculate_job_match resume_text resume_skills job_description).overall_match =
      roundTo1 (keyword_match_of resume_text job_description * (6 / 10) +
        skill_match_of resume_skills job_description * (4 / 10)) ∧
    (calculate_job_match resume_text resume_skills job_description).match_level =
      (if 75 ≤ overall_match_of resume_text resume_skills job_description then "Strong Match"
       else if 50 ≤ overall_match_of resume_text resume_skills job_description then
         "Moderate Match"
       else if 30 ≤ overall_match_of resume_text resume_skills job_description then
         "Partial Match"
       else "Low Match") ∧
    (calculate_job_match resume_text resume_skills job_description).recommendation =
      (if 75 ≤ overall_match_of resume_text resume_skills job_description then
        "Your resume is well-aligned with this position. Consider applying!"
       else if 50 ≤ overall_match_of resume_text resume_skills job_description then
        "You have relevant experience. Tailor your resume to highlight matching skills."
       else if 30 ≤ overall_match_of resume_text resume_skills job_description then
        "Some skills align. Focus on transferable skills and consider upskilling."
       else
        "This role may require significant skill development. Consider related positions.") ∧
    (calculate_job_match ("python developer") [] ("python")).keyword_match = 100 ∧
    (calculate_job_match ("python developer") [] ("python")).skill_match = 0 ∧
    (calculate_job_match ("python developer") [] ("python")).overall_match = 60 ∧
    (calculate_job_match ("python developer") [] ("python")).match_level = "Moderate Match" ∧
    (calculate_job_match ("python developer") [] ("python")).recommendation =
      "You have relevant experience. Tailor your resume to highlight matching skills." :=
  ⟨rfl, rfl, rfl, by decide, by decide, by decide, by decide, by decide⟩

unseal Rat.add Rat.mul Rat.inv Rat.sub Rat.ofScientific in
/-- Claim C8: calculate_job_match never divides by zero: keyword_match uses
the denominator max(len(important_keywords), 1), and skill_match is the
constant 50 fallback when no skill-indicator token occurs in the job
description, else the guarded ratio; in particular the empty job
description yields skill_match 50 and keyword_match 0. -/
theorem C8_division_guards (resume_text : String) (resume_skills : List String)
    (job_description : String) :
    keyword_match_of resume_text job_description =
      ((matched_keywords_of resume_text job_description).length : ℚ) /
        ((max (important_keywords_of job_description).length 1 : ℕ) : ℚ) * 100 ∧
    skill_match_of resume_skills job_description =
      (if jd_skills_of job_description = [] then (50 : ℚ)
       else ((matched_skills_of resume_skills job_description).length : ℚ) /
         ((max (jd_skills_of job_description).length 1 : ℕ) : ℚ) * 100) ∧
    (calculate_job_match resume_text resume_skills job_description).keyword_match =
      roundTo1 (keyword_match_of resume_text job_description) ∧
    (calculate_job_match resume_text resume_skills job_description).skill_match =
      roundTo1 (skill_match_of resume_skills job_description) ∧
    jd_skills_of ("") = [] ∧
    (calculate_job_match ("abc") [] ("")).skill_match = 50 ∧
    (calculate_job_match ("abc") [] ("")).keyword_match = 0 :=
  ⟨rfl, rfl, rfl, rfl, by decide, by decide, by decide⟩

/-- Claim C9 is false as stated: the found and missing action-verb lists do
partition the fixed vocabulary, but their lengths sum to 35, not 34. -/
theorem C9_counterexample :
    (calculate_keyword_score ("") none).2.action_verbs_found.length +
      (calculate_keyword_score ("") none).2.action_verbs_missing.length = 35 ∧
    ¬((calculate_keyword_score ("") none).2.action_verbs_found.length +
      (calculate_keyword_score ("") none).2.action_verbs_missing.length = 34) := by decide

/-- Claim C9 (amended): for every input, the action_verbs_found and
action_verbs_missing lists returned by calculate_keyword_score partition the
fixed 35-verb vocabulary: each verb is in exactly one list, both lists
preserve the vocabulary order (they are sublists of it), and their lengths
sum to 35. -/
theorem C9_amended_partition (resume_text : String) (job_description : Option String) :
    (∀ v, v ∈ ACTION_VERBS →
      (v ∈ (calculate_keyword_score resume_text job_description).2.action_verbs_found ↔
        v ∉ (calculate_keyword_score resume_text job_description).2.action_verbs_missing)) ∧
    (calculate_keyword_score resume_text job_description).2.action_verbs_found.Sublist
      ACTION_VERBS ∧
    (calculate_keyword_score resume_text job_description).2.action_verbs_missing.Sublist
      ACTION_VERBS ∧
    (calculate_keyword_score resume_text job_description).2.action_verbs_found.length +
      (calculate_keyword_score resume_text job_description).2.action_verbs_missing.length =
      35 := by
  have hf : (calculate_keyword_score resume_text job_description).2.action_verbs_found =
      ACTION_VERBS.filter (fun v => wholeWordIn v (lowerStr resume_text)) := rfl
  have hm : (calculate_keyword_score resume_text job_description).2.action_verbs_missing =
      ACTION_VERBS.filter (fun v => !(wholeWordIn v (lowerStr resume_text))) := rfl
  refine ⟨?_, ?_, ?_, ?_⟩
  · intro v hv
    rw [hf, hm]
    by_cases h : wholeWordIn v (lowerStr resume_text) <;> simp [List.mem_filter, hv, h]
  · rw [hf]; exact List.filter_sublist _
  · rw [hm]; exact List.filter_sublist _
  · rw [hf, hm,
      aux_filter_length_add (fun v => wholeWordIn v (lowerStr resume_text)) ACTION_VERBS]
    decide

/-- Witness for C9 (amended): the partition property discharged at the
concrete verb led and a concrete resume. -/
theorem C9_witness :
    ("led" ∈ (calculate_keyword_score rtC3 none).2.action_verbs_found ↔
      "led" ∉ (calculate_keyword_score rtC3 none).2.action_verbs_missing) :=
  (C9_amended_partition rtC3 none).1 ("led") (by decide)

unseal Rat.add Rat.mul Rat.inv Rat.sub Rat.ofScientific in
/-- Claim C10: total_score is computed from the unrounded analyzer
sub-scores before rounding, while the breakdown reports each sub-score
rounded to one decimal; on the concrete input below, total_score is 37
while rounding the sum of the reported breakdown values gives 36. -/
theorem C10_total_unrounded_vs_breakdown (resume_text : String) (skills : List String)
    (job_description : Option String) :
    (calculate_ats_score resume_text skills job_description).total_score =
      min (max (pythonRound ((calculate_keyword_score resume_text job_description).1 +
        (calculate_formatting_score resume_text).1 +
        (calculate_skill_coverage skills job_description).1 +
        (calculate_experience_quality resume_text).1)) 0) 100 ∧
    (calculate_ats_score resume_text skills job_description).breakdown.keyword_score =
      roundTo1 (calculate_keyword_score resume_text job_description).1 ∧
    (calculate_ats_score resume_text skills job_description).breakdown.formatting_score =
      roundTo1 (calculate_formatting_score resume_text).1 ∧
    (calculate_ats_score resume_text skills job_description).breakdown.skill_score =
      roundTo1 (calculate_skill_coverage skills job_description).1 ∧
    (calculate_ats_score resume_text skills job_description).breakdown.experience_score =
      roundTo1 (calculate_experience_quality resume_text).1 ∧
    (calculate_ats_score rtC10 skillsC10 jdC10).total_score = 37 ∧
    pythonRound ((calculate_ats_score rtC10 skillsC10 jdC10).breakdown.keyword_score +
      (calculate_ats_score rtC10 skillsC10 jdC10).breakdown.formatting_score +
      (calculate_ats_score rtC10 skillsC10 jdC10).breakdown.skill_score +
      (calculate_ats_score rtC10 skillsC10 jdC10).breakdown.experience_score) = 36 ∧
    (calculate_ats_score rtC10 skillsC10 jdC10).total_score ≠
      pythonRound ((calculate_ats_score rtC10 skillsC10 jdC10).breakdown.keyword_score +
        (calculate_ats_score rtC10 skillsC10 jdC10).breakdown.formatting_score +
        (calculate_ats_score rtC10 skillsC10 jdC10).breakdown.skill_score +
        (calculate_ats_score rtC10 skillsC10 jdC10).breakdown.experience_score) :=
  ⟨rfl, rfl, rfl, rfl, rfl, by decide, by decide, by decide⟩

end ATSScorer
